import Mathlib

/-
Verification of the web-shell runtime emitted by the Web2Native generators.

The two generator scripts (`web2candroid.py`, `web2cios.py`) emit the shell
runtime as source templates (Kotlin `MainActivity.kt` for Android, Swift
`ViewController.swift` plus an injected JavaScript bridge for iOS).  The
definitions below are a shallow embedding of that emitted runtime logic:
each Lean function transcribes one handler of the template, with the
host-platform surface (WebView URL, timers, activity-result callbacks)
made explicit as state fields and event parameters.
-/

namespace Web2Native

/- ==========================================================================
   FILE-CHOOSER SUBSYSTEM (Android `onShowFileChooser` + `fileChooserLauncher`)

   The Kotlin template keeps a single nullable field
   `filePathCallback : ValueCallback<Array<Uri>>?`.  We model the stored
   callback by an `Option Nat` identifier, and record every call of
   `onReceiveValue` in a log: an entry `(id, v)` means the callback `id`
   was resolved with value `v` (`none` models `onReceiveValue(null)`,
   `some [u]` models `onReceiveValue(arrayOf(Uri.parse(u)))`).
   ========================================================================== -/

structure FCState where
  pending : Option Nat
  log : List (Nat × Option (List String))
deriving DecidableEq

/-- Events delivered to the file-chooser subsystem:
`show cb launchFails` is a `WebChromeClient.onShowFileChooser` invocation
carrying the new callback `cb`, where `launchFails` records whether
`fileChooserLauncher.launch(intent)` throws; `result resultOk dataString`
is the activity-result callback of `fileChooserLauncher`. -/
inductive FCEvent where
  | showChooser (cb : Option Nat) (launchFails : Bool)
  | result (resultOk : Bool) (dataString : Option String)

/-- Transcription of the two Kotlin handlers.

`onShowFileChooser`: first `this@MainActivity.filePathCallback?.onReceiveValue(null)`
(resolve any previous pending callback with null), then store the new
callback; if launching the picker throws, the stored callback is set back
to null (with no `onReceiveValue` call) and `false` is returned.

`fileChooserLauncher` result: if `resultCode == RESULT_OK`, resolve with
`arrayOf(Uri.parse(data.dataString))` when `dataString` is non-null and
with `null` otherwise; on any other result code resolve with `null`;
finally clear `filePathCallback`. -/
def fcStep (s : FCState) (e : FCEvent) : FCState :=
  match e with
  | .showChooser cb launchFails =>
      { pending := if launchFails then none else cb,
        log := match s.pending with
               | some old => s.log ++ [(old, none)]
               | none => s.log }
  | .result resultOk dataString =>
      { pending := none,
        log := match s.pending with
               | some cur =>
                   s.log ++ [(cur, if resultOk then dataString.map (fun d => [d]) else none)]
               | none => s.log }

/-- Fresh activity start: `filePathCallback = null`, no resolution has happened. -/
def fcInit : FCState := { pending := none, log := [] }

def fcRun (s : FCState) (es : List FCEvent) : FCState := es.foldl fcStep s

/-- How many times callback `id` has been resolved (`onReceiveValue` calls). -/
def resolvedCount (log : List (Nat × Option (List String))) (id : Nat) : Nat :=
  (log.filter (fun p => p.1 == id)).length

/-- The callback identifiers handed to `onShowFileChooser` along a trace. -/
def fcShownIds : List FCEvent → List Nat
  | [] => []
  | FCEvent.showChooser (some id) _ :: es => id :: fcShownIds es
  | FCEvent.showChooser none _ :: es => fcShownIds es
  | FCEvent.result _ _ :: es => fcShownIds es

theorem resolvedCount_append_single (log : List (Nat × Option (List String)))
    (a : Nat) (v : Option (List String)) (id : Nat) :
    resolvedCount (log ++ [(a, v)]) id
      = resolvedCount log id + (if a = id then 1 else 0) := by
  by_cases h : a = id <;> simp [resolvedCount, List.filter_append, h]

theorem mem_fcShownIds_cons (e : FCEvent) (es : List FCEvent) (j : Nat)
    (hj : j ∈ fcShownIds es) : j ∈ fcShownIds (e :: es) := by
  cases e with
  | showChooser cb lf =>
      cases cb with
      | none => simpa [fcShownIds] using hj
      | some c => simp only [fcShownIds, List.mem_cons]; exact Or.inr hj
  | result ok ds => simpa [fcShownIds] using hj

theorem nodup_fcShownIds_tail (e : FCEvent) (es : List FCEvent)
    (h : (fcShownIds (e :: es)).Nodup) : (fcShownIds es).Nodup := by
  cases e with
  | showChooser cb lf =>
      cases cb with
      | none => simpa [fcShownIds] using h
      | some c => exact (List.nodup_cons.mp (by simpa [fcShownIds] using h)).2
  | result ok ds => simpa [fcShownIds] using h

theorem head_not_mem_fcShownIds (c : Nat) (lf : Bool) (es : List FCEvent)
    (h : (fcShownIds (FCEvent.showChooser (some c) lf :: es)).Nodup) :
    c ∉ fcShownIds es :=
  (List.nodup_cons.mp (by simpa [fcShownIds] using h)).1

theorem head_mem_fcShownIds (c : Nat) (lf : Bool) (es : List FCEvent) :
    c ∈ fcShownIds (FCEvent.showChooser (some c) lf :: es) := by
  simp [fcShownIds]

/-- Each distinct callback handed to the chooser is resolved at most once:
invariant preservation over arbitrary event traces. -/
theorem fcRun_resolvedCount_le (es : List FCEvent) :
    ∀ s : FCState,
      (∀ id, resolvedCount s.log id ≤ 1) →
      (∀ id, s.pending = some id → resolvedCount s.log id = 0) →
      (∀ id, id ∈ fcShownIds es → resolvedCount s.log id = 0 ∧ s.pending ≠ some id) →
      (fcShownIds es).Nodup →
      ∀ id, resolvedCount (fcRun s es).log id ≤ 1 := by
  induction es with
  | nil =>
      intro s h1 _ _ _ id
      simpa [fcRun] using h1 id
  | cons e es ih =>
      intro s h1 h2 h3 hnd id
      have hrun : fcRun s (e :: es) = fcRun (fcStep s e) es := rfl
      rw [hrun]
      cases e with
      | showChooser cb launchFails =>
          have hpend : (fcStep s (FCEvent.showChooser cb launchFails)).pending
              = if launchFails then none else cb := rfl
          cases hp : s.pending with
          | none =>
              have hlog : (fcStep s (FCEvent.showChooser cb launchFails)).log = s.log := by
                simp [fcStep, hp]
              refine ih (fcStep s (FCEvent.showChooser cb launchFails)) ?_ ?_ ?_ ?_ id
              · intro j; rw [hlog]; exact h1 j
              · intro j hj
                rw [hlog]
                rw [hpend] at hj
                cases launchFails with
                | true => simp at hj
                | false =>
                    simp only [if_neg Bool.false_ne_true, Bool.false_eq_true,
                      ite_false] at hj
                    have hmem : j ∈ fcShownIds (FCEvent.showChooser cb false :: es) := by
                      rw [hj]; exact head_mem_fcShownIds j false es
                    exact (h3 j hmem).1
              · intro j hj
                have hfull := h3 j (mem_fcShownIds_cons _ _ _ hj)
                refine ⟨by rw [hlog]; exact hfull.1, ?_⟩
                rw [hpend]
                cases launchFails with
                | true => simp
                | false =>
                    simp only [Bool.false_eq_true, ite_false]
                    cases hc : cb with
                    | none => simp
                    | some c =>
                        have hcnot : c ∉ fcShownIds es := by
                          refine head_not_mem_fcShownIds c false es ?_
                          rw [← hc]; exact hnd
                        intro hEq
                        have : c = j := by
                          injection hEq
                        exact hcnot (this ▸ hj)
              · exact nodup_fcShownIds_tail _ _ hnd
          | some old =>
              have hlog : (fcStep s (FCEvent.showChooser cb launchFails)).log
                  = s.log ++ [(old, none)] := by
                simp [fcStep, hp]
              have hcnt : ∀ j, resolvedCount (fcStep s (FCEvent.showChooser cb launchFails)).log j
                  = resolvedCount s.log j + (if old = j then 1 else 0) := by
                intro j; rw [hlog]; exact resolvedCount_append_single _ _ _ _
              have hold0 : resolvedCount s.log old = 0 := h2 old hp
              refine ih (fcStep s (FCEvent.showChooser cb launchFails)) ?_ ?_ ?_ ?_ id
              · intro j
                rw [hcnt j]
                by_cases ho : old = j
                · subst ho; simp [hold0]
                · simp only [if_neg ho, Nat.add_zero]; exact h1 j
              · intro j hj
                rw [hpend] at hj
                cases launchFails with
                | true => simp at hj
                | false =>
                    simp only [Bool.false_eq_true, ite_false] at hj
                    have hmem : j ∈ fcShownIds (FCEvent.showChooser cb false :: es) := by
                      rw [hj]; exact head_mem_fcShownIds j false es
                    have hfull := h3 j hmem
                    have hne : old ≠ j := by
                      intro hEq
                      exact hfull.2 (by rw [hp, hEq])
                    rw [hcnt j]
                    simp [if_neg hne, hfull.1]
              · intro j hj
                have hfull := h3 j (mem_fcShownIds_cons _ _ _ hj)
                have hne : old ≠ j := by
                  intro hEq
                  exact hfull.2 (by rw [hp, hEq])
                refine ⟨by rw [hcnt j]; simp [if_neg hne, hfull.1], ?_⟩
                rw [hpend]
                cases launchFails with
                | true => simp
                | false =>
                    simp only [Bool.false_eq_true, ite_false]
                    cases hc : cb with
                    | none => simp
                    | some c =>
                        have hcnot : c ∉ fcShownIds es := by
                          refine head_not_mem_fcShownIds c false es ?_
                          rw [← hc]; exact hnd
                        intro hEq
                        have : c = j := by
                          injection hEq
                        exact hcnot (this ▸ hj)
              · exact nodup_fcShownIds_tail _ _ hnd
      | result resultOk dataString =>
          have hids : fcShownIds (FCEvent.result resultOk dataString :: es)
              = fcShownIds es := rfl
          have hpend : (fcStep s (FCEvent.result resultOk dataString)).pending = none := rfl
          cases hp : s.pending with
          | none =>
              have hlog : (fcStep s (FCEvent.result resultOk dataString)).log = s.log := by
                simp [fcStep, hp]
              refine ih (fcStep s (FCEvent.result resultOk dataString)) ?_ ?_ ?_ ?_ id
              · intro j; rw [hlog]; exact h1 j
              · intro j hj; rw [hpend] at hj; simp at hj
              · intro j hj
                have hfull := h3 j (by rw [hids]; exact hj)
                exact ⟨by rw [hlog]; exact hfull.1, by rw [hpend]; simp⟩
              · rw [hids] at hnd; exact hnd
          | some cur =>
              have hlog : (fcStep s (FCEvent.result resultOk dataString)).log
                  = s.log ++ [(cur, if resultOk then dataString.map (fun d => [d]) else none)] := by
                simp [fcStep, hp]
              have hcnt : ∀ j, resolvedCount (fcStep s (FCEvent.result resultOk dataString)).log j
                  = resolvedCount s.log j + (if cur = j then 1 else 0) := by
                intro j; rw [hlog]; exact resolvedCount_append_single _ _ _ _
              have hcur0 : resolvedCount s.log cur = 0 := h2 cur hp
              refine ih (fcStep s (FCEvent.result resultOk dataString)) ?_ ?_ ?_ ?_ id
              · intro j
                rw [hcnt j]
                by_cases hc : cur = j
                · subst hc; simp [hcur0]
                · simp only [if_neg hc, Nat.add_zero]; exact h1 j
              · intro j hj; rw [hpend] at hj; simp at hj
              · intro j hj
                have hfull := h3 j (by rw [hids]; exact hj)
                have hne : cur ≠ j := by
                  intro hEq
                  exact hfull.2 (by rw [hp, hEq])
                exact ⟨by rw [hcnt j]; simp [if_neg hne, hfull.1], by rw [hpend]; simp⟩
              · rw [hids] at hnd; exact hnd

/-- C1 (amended): at most one pending file request exists at any time (the
stored callback is a single nullable field); a second file-chooser
invocation while one is pending resolves the first callback with a null
result before storing the second; a picker success or cancel outcome
resolves the stored callback exactly once and clears it; an error
launching the picker clears the stored callback without resolving it
(returning false to the host); consequently, over any event trace with
pairwise-distinct callbacks, every callback is resolved at most once. -/
theorem C1_file_chooser_amended :
    (∀ (s : FCState) (old : Nat) (cb : Option Nat) (lf : Bool),
        s.pending = some old →
        (fcStep s (FCEvent.showChooser cb lf)).log = s.log ++ [(old, none)] ∧
        (fcStep s (FCEvent.showChooser cb lf)).pending = (if lf then none else cb)) ∧
    (∀ (s : FCState) (cur : Nat) (ok : Bool) (ds : Option String),
        s.pending = some cur →
        (fcStep s (FCEvent.result ok ds)).log
          = s.log ++ [(cur, if ok then ds.map (fun d => [d]) else none)] ∧
        (fcStep s (FCEvent.result ok ds)).pending = none) ∧
    (∀ (s : FCState) (cb : Option Nat),
        (fcStep s (FCEvent.showChooser cb true)).pending = none ∧
        (fcStep s (FCEvent.showChooser cb true)).log
          = (match s.pending with
             | some old => s.log ++ [(old, none)]
             | none => s.log)) ∧
    (∀ es : List FCEvent, (fcShownIds es).Nodup →
        ∀ id, resolvedCount (fcRun fcInit es).log id ≤ 1) := by
  refine ⟨?_, ?_, ?_, ?_⟩
  · intro s old cb lf hp
    exact ⟨by simp [fcStep, hp], rfl⟩
  · intro s cur ok ds hp
    exact ⟨by simp [fcStep, hp], rfl⟩
  · intro s cb
    exact ⟨rfl, rfl⟩
  · intro es hnd id
    refine fcRun_resolvedCount_le es fcInit ?_ ?_ ?_ hnd id
    · intro j; simp [fcInit, resolvedCount]
    · intro j hj; simp [fcInit] at hj
    · intro j _; exact ⟨by simp [fcInit, resolvedCount], by simp [fcInit]⟩

theorem C1_witness :
    ((fcStep { pending := some 0, log := [] } (FCEvent.showChooser (some 1) false)).log
        = [(0, none)] ∧
     (fcStep { pending := some 0, log := [] } (FCEvent.showChooser (some 1) false)).pending
        = some 1) ∧
    ((fcStep { pending := some 1, log := [(0, none)] } (FCEvent.result false none)).log
        = [(0, none), (1, none)] ∧
     (fcStep { pending := some 1, log := [(0, none)] } (FCEvent.result false none)).pending
        = none) ∧
    resolvedCount (fcRun fcInit
        [FCEvent.showChooser (some 0) false, FCEvent.showChooser (some 1) false,
         FCEvent.result true (some "u")]).log 0 ≤ 1 ∧
    resolvedCount (fcRun fcInit
        [FCEvent.showChooser (some 0) false, FCEvent.showChooser (some 1) false,
         FCEvent.result true (some "u")]).log 1 ≤ 1 := by
  obtain ⟨ha, hb, _, hd⟩ := C1_file_chooser_amended
  refine ⟨?_, ?_, ?_, ?_⟩
  · simpa using ha { pending := some 0, log := [] } 0 (some 1) false rfl
  · simpa using hb { pending := some 1, log := [(0, none)] } 1 false none rfl
  · exact hd _ (by decide) 0
  · exact hd _ (by decide) 1

/-- C1 counterexample: when launching the system picker throws, the
stored callback is cleared but never resolved; contrary to the claim,
the error-launch outcome does not resolve the stored callback exactly
once (here callback 1 is resolved zero times, even after a subsequent
picker result is delivered). -/
theorem C1_counterexample :
    (fcRun fcInit [FCEvent.showChooser (some 1) true,
                   FCEvent.result true (some "picked")]).pending = none ∧
    resolvedCount (fcRun fcInit [FCEvent.showChooser (some 1) true,
                   FCEvent.result true (some "picked")]).log 1 = 0 := by
  decide

/- ==========================================================================
   NAVIGATION SHELL (Android `MainActivity` state, connectivity monitor,
   `loadOffline`, `shouldOverrideUrlLoading`)
   ========================================================================== -/

/-- `url.startsWith("file:///android_asset/")` from the Kotlin template,
computed on the character lists of the strings. -/
def isAssetUrl (u : String) : Bool :=
  "file:///android_asset/".data.isPrefixOf u.data

/-- `LOCAL_URL` in the Kotlin template. -/
def LOCAL_URL : String := "file:///android_asset/www/index.html"

/-- The navigation-relevant mutable state of `MainActivity`:
`currentUrl` is `myWebView.url` (none before any load), `lastLiveUrl` and
`isOffline` are the Kotlin fields of the same names, `progressVisible` is
the progress bar visibility, `toasts` records `showToast` calls. -/
structure NavState where
  currentUrl : Option String
  lastLiveUrl : String
  isOffline : Bool
  progressVisible : Bool
  toasts : List String
deriving DecidableEq

/-- `loadOffline(msg)`: set `isOffline = true`; if the displayed URL is
non-null and not a local asset, capture it into `lastLiveUrl`; load
`LOCAL_URL`; show the toast `msg`. -/
def loadOffline (s : NavState) (msg : String) : NavState :=
  { currentUrl := some LOCAL_URL,
    lastLiveUrl :=
      match s.currentUrl with
      | some u => if isAssetUrl u then s.lastLiveUrl else u
      | none => s.lastLiveUrl,
    isOffline := true,
    progressVisible := s.progressVisible,
    toasts := s.toasts ++ [msg] }

/-- `setupNetworkMonitor`'s `onAvailable`: toast "Back Online"; if the
WebView is exactly on `LOCAL_URL`, load `lastLiveUrl`; otherwise leave
navigation untouched. -/
def onAvailable (s : NavState) : NavState :=
  if s.currentUrl = some LOCAL_URL then
    { s with toasts := s.toasts ++ ["Back Online"], currentUrl := some s.lastLiveUrl }
  else
    { s with toasts := s.toasts ++ ["Back Online"] }

/-- `setupNetworkMonitor`'s `onLost`: toast "Connection Lost" — and
nothing else. -/
def onLost (s : NavState) : NavState :=
  { s with toasts := s.toasts ++ ["Connection Lost"] }

/-- `WebViewClient.onPageStarted(url)`: the WebView now displays `url`
(host surface); the handler shows the progress bar and, when `url` is not
a local asset, records it into `lastLiveUrl`. -/
def onPageStarted (s : NavState) (url : String) : NavState :=
  { s with currentUrl := some url,
           progressVisible := true,
           lastLiveUrl := if isAssetUrl url then s.lastLiveUrl else url }

/-- `WebViewClient.onPageFinished`: hide the progress bar (the splash
logic emitted at the same spot is modelled separately below). -/
def onPageFinished (s : NavState) : NavState :=
  { s with progressVisible := false }

/-- `onCreate`'s navigation part: reset `lastLiveUrl = LIVE_URL`; if the
network is available load `LIVE_URL`, else `loadOffline("No Internet
Connection")`. -/
def bootShell (liveUrl : String) (networkUp : Bool) : NavState :=
  if networkUp then
    { currentUrl := some liveUrl, lastLiveUrl := liveUrl, isOffline := false,
      progressVisible := false, toasts := [] }
  else
    loadOffline
      { currentUrl := none, lastLiveUrl := liveUrl, isOffline := false,
        progressVisible := false, toasts := [] }
      "No Internet Connection"

/-- The spec's NavigationState enum. -/
inductive SpecNavState where
  | Booting
  | LoadingRemote
  | ContentReady
  | LoadingFallback
  | FallbackReady
deriving DecidableEq

/-- Abstraction from the concrete shell state to the spec's
NavigationState: before any load the machine is Booting; while displaying
a local-asset document it is LoadingFallback/FallbackReady according to
the progress indicator; while displaying a remote document it is
LoadingRemote/ContentReady likewise. -/
def specNavState (s : NavState) : SpecNavState :=
  match s.currentUrl with
  | none => SpecNavState.Booting
  | some u =>
      if isAssetUrl u then
        (if s.progressVisible then SpecNavState.LoadingFallback
         else SpecNavState.FallbackReady)
      else
        (if s.progressVisible then SpecNavState.LoadingRemote
         else SpecNavState.ContentReady)

/-- C2 counterexample: boot online, finish loading the remote page
(ContentReady), then deliver a connectivity-lost event.  The handler only
shows a toast: the shell remains on the remote page and the abstracted
NavigationState is still ContentReady immediately after the Lost event —
no transition to LoadingFallback occurs and nothing is captured. -/
theorem C2_counterexample :
    specNavState
        (onLost (onPageFinished
          (onPageStarted (bootShell "https://example.com" true) "https://example.com")))
      = SpecNavState.ContentReady ∧
    onLost (onPageFinished
        (onPageStarted (bootShell "https://example.com" true) "https://example.com"))
      = { onPageFinished
            (onPageStarted (bootShell "https://example.com" true) "https://example.com")
          with
          toasts :=
            (onPageFinished
              (onPageStarted (bootShell "https://example.com" true) "https://example.com")).toasts
            ++ ["Connection Lost"] } := by
  exact ⟨by decide, rfl⟩

/-- C2 (amended): the connectivity-lost handler only surfaces the
"Connection Lost" notice and leaves the displayed URL, the last-known
location, the offline flag and the progress indicator untouched; the
capture of the displayed non-fallback location into LastKnownLocation
before switching to the fallback document is performed by `loadOffline`,
which runs only at boot when connectivity is absent. -/
theorem C2_connectivity_lost_amended :
    (∀ s : NavState, onLost s = { s with toasts := s.toasts ++ ["Connection Lost"] }) ∧
    (∀ (s : NavState) (u msg : String),
        s.currentUrl = some u → isAssetUrl u = false →
        (loadOffline s msg).lastLiveUrl = u ∧
        (loadOffline s msg).currentUrl = some LOCAL_URL ∧
        (loadOffline s msg).isOffline = true ∧
        (loadOffline s msg).toasts = s.toasts ++ [msg]) := by
  constructor
  · intro s; rfl
  · intro s u msg hu ha
    refine ⟨?_, rfl, rfl, rfl⟩
    simp [loadOffline, hu, ha]

theorem C2_witness :
    (onLost { currentUrl := some "https://a.example", lastLiveUrl := "https://a.example",
              isOffline := false, progressVisible := false, toasts := [] }
      = { currentUrl := some "https://a.example", lastLiveUrl := "https://a.example",
          isOffline := false, progressVisible := false, toasts := ["Connection Lost"] }) ∧
    ((loadOffline { currentUrl := some "https://b.example", lastLiveUrl := "https://a.example",
                    isOffline := false, progressVisible := false, toasts := [] }
        "No Internet Connection").lastLiveUrl = "https://b.example") := by
  obtain ⟨h1, h2⟩ := C2_connectivity_lost_amended
  refine ⟨h1 _, ?_⟩
  exact (h2 { currentUrl := some "https://b.example", lastLiveUrl := "https://a.example",
              isOffline := false, progressVisible := false, toasts := [] }
          "https://b.example" "No Internet Connection" rfl (by decide)).1

/-- C4 (confirmed): on a connectivity-available event the shell reloads
`lastLiveUrl` (which defaults to the configured remote URL at boot) if
and only if the currently displayed document is exactly the local
fallback document; in every other case navigation is left untouched. -/
theorem C4_connectivity_available :
    (∀ s : NavState, s.currentUrl = some LOCAL_URL →
        onAvailable s
          = { s with toasts := s.toasts ++ ["Back Online"],
                     currentUrl := some s.lastLiveUrl }) ∧
    (∀ s : NavState, s.currentUrl ≠ some LOCAL_URL →
        (onAvailable s).currentUrl = s.currentUrl ∧
        (onAvailable s).lastLiveUrl = s.lastLiveUrl ∧
        (onAvailable s).isOffline = s.isOffline ∧
        (onAvailable s).progressVisible = s.progressVisible) ∧
    (∀ (liveUrl : String) (networkUp : Bool),
        (bootShell liveUrl networkUp).lastLiveUrl = liveUrl) := by
  refine ⟨?_, ?_, ?_⟩
  · intro s h; simp [onAvailable, h]
  · intro s h; simp [onAvailable, h]
  · intro liveUrl networkUp
    cases networkUp with
    | true => rfl
    | false => rfl

theorem C4_witness :
    (onAvailable { currentUrl := some LOCAL_URL, lastLiveUrl := "https://a.example",
                   isOffline := true, progressVisible := false, toasts := [] }
       = { currentUrl := some "https://a.example", lastLiveUrl := "https://a.example",
           isOffline := true, progressVisible := false, toasts := ["Back Online"] }) ∧
    ((onAvailable { currentUrl := some "https://c.example", lastLiveUrl := "https://a.example",
                    isOffline := false, progressVisible := false, toasts := [] }).currentUrl
       = some "https://c.example") ∧
    (bootShell "https://a.example" false).lastLiveUrl = "https://a.example" := by
  obtain ⟨h1, h2, h3⟩ := C4_connectivity_available
  refine ⟨?_, ?_, h3 _ _⟩
  · have h := h1 { currentUrl := some LOCAL_URL, lastLiveUrl := "https://a.example",
                   isOffline := true, progressVisible := false, toasts := [] } rfl
    simpa using h
  · exact (h2 { currentUrl := some "https://c.example", lastLiveUrl := "https://a.example",
                isOffline := false, progressVisible := false, toasts := [] }
            (by decide)).1

/- ==========================================================================
   NAVIGATION GUARD (`shouldOverrideUrlLoading`)
   ========================================================================== -/

/-- `shouldOverrideUrlLoading`: local-asset targets are always allowed
(return false = do not intercept); any other target is intercepted with a
"No Connection" toast when the network is unavailable at that moment, and
allowed otherwise.  The result is (intercepted?, toasts shown). -/
def shouldOverrideUrlLoading (targetUrl : String) (networkAvailable : Bool) :
    Bool × List String :=
  if isAssetUrl targetUrl then (false, [])
  else if networkAvailable = false then (true, ["No Connection"])
  else (false, [])

/-- C9 counterexample: a bundled asset page other than the fallback
document itself (here `page2.html`) is allowed with no failure notice
even while connectivity is absent — the claim says any target other than
the fallback document is denied with a notice when connectivity is
absent. -/
theorem C9_counterexample :
    "file:///android_asset/www/page2.html" ≠ LOCAL_URL ∧
    shouldOverrideUrlLoading "file:///android_asset/www/page2.html" false
      = (false, []) := by
  decide

/-- C9 (amended): every target under the local asset tree
(`file:///android_asset/`), which includes the fallback document, is
always allowed with no notice; a target outside the local asset tree is
denied with a "No Connection" notice exactly when connectivity is absent
at the moment of the request, and allowed when connectivity is
present. -/
theorem C9_navigation_guard_amended :
    (∀ (targetUrl : String) (net : Bool), isAssetUrl targetUrl = true →
        shouldOverrideUrlLoading targetUrl net = (false, [])) ∧
    (∀ net : Bool, shouldOverrideUrlLoading LOCAL_URL net = (false, [])) ∧
    (∀ (targetUrl : String), isAssetUrl targetUrl = false →
        shouldOverrideUrlLoading targetUrl false = (true, ["No Connection"]) ∧
        shouldOverrideUrlLoading targetUrl true = (false, [])) := by
  refine ⟨?_, ?_, ?_⟩
  · intro targetUrl net h; simp [shouldOverrideUrlLoading, h]
  · intro net
    have h : isAssetUrl LOCAL_URL = true := by decide
    simp [shouldOverrideUrlLoading, h]
  · intro targetUrl h
    constructor <;> simp [shouldOverrideUrlLoading, h]

theorem C9_witness :
    shouldOverrideUrlLoading "file:///android_asset/www/index.html" false = (false, []) ∧
    shouldOverrideUrlLoading LOCAL_URL false = (false, []) ∧
    shouldOverrideUrlLoading "https://example.com/page" false
      = (true, ["No Connection"]) ∧
    shouldOverrideUrlLoading "https://example.com/page" true = (false, []) := by
  obtain ⟨h1, h2, h3⟩ := C9_navigation_guard_amended
  have hx := h3 "https://example.com/page" (by decide)
  exact ⟨h1 "file:///android_asset/www/index.html" false (by decide), h2 false,
         hx.1, hx.2⟩

/- ==========================================================================
   SPLASH OVERLAY (`kt_splash_logic` emitted into `onPageFinished`)

   The emitted Kotlin checks `splashLayout.visibility == View.VISIBLE` on
   every page-finish, and if so starts a 400ms alpha fade whose
   end-listener sets `visibility = View.GONE`.  Visibility therefore
   flips to GONE only when the fade animation ends, not when it starts.
   ========================================================================== -/

structure SplashState where
  splashVisible : Bool
  animateCalls : Nat
deriving DecidableEq

/-- Events seen by the splash logic: a content-ready signal
(`onPageFinished`) and the end of a running fade animation
(`onAnimationEnd`). -/
inductive SplashEvent where
  | contentReady
  | fadeEnd

/-- `contentReady`: if the overlay is still visible, start (another) fade
animation; `fadeEnd`: the animation's end-listener sets the overlay
GONE. -/
def splashStep (s : SplashState) (e : SplashEvent) : SplashState :=
  match e with
  | .contentReady =>
      if s.splashVisible then { s with animateCalls := s.animateCalls + 1 } else s
  | .fadeEnd => { s with splashVisible := false }

def splashRun (s : SplashState) (es : List SplashEvent) : SplashState :=
  es.foldl splashStep s

/-- At boot the overlay is shown and no fade has run. -/
def splashBoot : SplashState := { splashVisible := true, animateCalls := 0 }

/-- C7 counterexample: two content-ready signals both arriving before the
400ms fade completes each start a fade animation — two dismiss animations
run in one session, contradicting "exactly one regardless of how many
content-ready signals fire". -/
theorem C7_counterexample :
    (splashRun splashBoot
        [SplashEvent.contentReady, SplashEvent.contentReady, SplashEvent.fadeEnd]).animateCalls
      = 2 := by
  decide

/-- C7 (amended): once the overlay is hidden, every further content-ready
signal is a no-op and the overlay is never re-shown by any event; the
first content-ready signal starts the fade, and provided the fade
completes before any further content-ready signal arrives, exactly one
fade animation runs in the session no matter how many content-ready
signals follow.  (Only a second signal inside the 400ms fade window can
start an additional fade.) -/
theorem C7_splash_amended :
    (∀ s : SplashState, s.splashVisible = false →
        splashStep s SplashEvent.contentReady = s) ∧
    (∀ (s : SplashState) (es : List SplashEvent), s.splashVisible = false →
        (splashRun s es).splashVisible = false) ∧
    (∀ n : Nat,
        splashRun splashBoot
            ([SplashEvent.contentReady, SplashEvent.fadeEnd]
              ++ List.replicate n SplashEvent.contentReady)
          = { splashVisible := false, animateCalls := 1 }) := by
  have hnoop : ∀ s : SplashState, s.splashVisible = false →
      splashStep s SplashEvent.contentReady = s := by
    intro s h; simp [splashStep, h]
  have hnever : ∀ (es : List SplashEvent) (s : SplashState), s.splashVisible = false →
      (splashRun s es).splashVisible = false := by
    intro es
    induction es with
    | nil => intro s h; simpa [splashRun] using h
    | cons e es ih =>
        intro s h
        have hstep : (splashStep s e).splashVisible = false := by
          cases e with
          | contentReady => simp [splashStep, h]
          | fadeEnd => simp [splashStep]
        exact ih (splashStep s e) hstep
  have hfix : ∀ (n : Nat) (s : SplashState), s.splashVisible = false →
      splashRun s (List.replicate n SplashEvent.contentReady) = s := by
    intro n
    induction n with
    | zero => intro s _; rfl
    | succ n ih =>
        intro s h
        have : splashStep s SplashEvent.contentReady = s := hnoop s h
        calc splashRun s (List.replicate (n + 1) SplashEvent.contentReady)
            = splashRun (splashStep s SplashEvent.contentReady)
                (List.replicate n SplashEvent.contentReady) := rfl
          _ = splashRun s (List.replicate n SplashEvent.contentReady) := by rw [this]
          _ = s := ih s h
  refine ⟨hnoop, fun s es h => hnever es s h, ?_⟩
  intro n
  have h2 : splashRun splashBoot [SplashEvent.contentReady, SplashEvent.fadeEnd]
      = { splashVisible := false, animateCalls := 1 } := by decide
  calc splashRun splashBoot
          ([SplashEvent.contentReady, SplashEvent.fadeEnd]
            ++ List.replicate n SplashEvent.contentReady)
      = splashRun (splashRun splashBoot [SplashEvent.contentReady, SplashEvent.fadeEnd])
          (List.replicate n SplashEvent.contentReady) := by
        simp [splashRun, List.foldl_append]
    _ = splashRun { splashVisible := false, animateCalls := 1 }
          (List.replicate n SplashEvent.contentReady) := by rw [h2]
    _ = { splashVisible := false, animateCalls := 1 } := hfix n _ rfl

theorem C7_witness :
    splashStep { splashVisible := false, animateCalls := 1 } SplashEvent.contentReady
      = { splashVisible := false, animateCalls := 1 } ∧
    (splashRun { splashVisible := false, animateCalls := 1 }
        [SplashEvent.contentReady, SplashEvent.contentReady]).splashVisible = false ∧
    splashRun splashBoot
        ([SplashEvent.contentReady, SplashEvent.fadeEnd]
          ++ List.replicate 3 SplashEvent.contentReady)
      = { splashVisible := false, animateCalls := 1 } := by
  obtain ⟨h1, h2, h3⟩ := C7_splash_amended
  exact ⟨h1 _ rfl, h2 _ _ rfl, h3 3⟩

/- ==========================================================================
   EXIT GUARD (`handleOnBackPressed` in `onCreate`)
   ========================================================================== -/

inductive ExitAction where
  | goBack
  | exitNotice
  | finishApp
deriving DecidableEq

/-- `doubleBackToExitPressedOnce` plus the 2000ms one-shot reset timer
(`deadline` is meaningful only while `armed`); `finished` records
`finish()`; `actions` records the externally visible effects. -/
structure ExitState where
  armed : Bool
  deadline : Nat
  finished : Bool
  actions : List ExitAction
deriving DecidableEq

def EXIT_WINDOW_MS : Nat := 2000

/-- The one-shot reset timer posted at arming fires at its deadline: a
back-press arriving at or after the deadline observes the flag already
cleared. -/
def disarmIfElapsed (s : ExitState) (t : Nat) : ExitState :=
  if s.armed = true ∧ s.deadline ≤ t then { s with armed := false } else s

/-- `handleOnBackPressed` at time `t`: if the WebView can go back,
navigate back; else if the flag is armed, `finish()`; else arm the flag,
toast "Press back again to exit" and post the 2000ms reset. -/
def handleOnBackPressed (s : ExitState) (t : Nat) (canGoBack : Bool) : ExitState :=
  let s1 := disarmIfElapsed s t
  if canGoBack then { s1 with actions := s1.actions ++ [ExitAction.goBack] }
  else if s1.armed then
    { s1 with finished := true, actions := s1.actions ++ [ExitAction.finishApp] }
  else
    { s1 with armed := true, deadline := t + EXIT_WINDOW_MS,
              actions := s1.actions ++ [ExitAction.exitNotice] }

/-- C8 (confirmed): at the root, a first back-action arms the guard and
shows the transient notice without terminating; a second back-action
strictly inside the 2000ms window terminates; a second back-action
strictly after the window finds the flag silently disarmed, so it only
re-arms and never terminates; and any back-action while web back-history
exists navigates back without arming or terminating. -/
theorem C8_exit_guard (s : ExitState) (t tt : Nat)
    (hroot : s.armed = false) (hfin : s.finished = false) :
    ((handleOnBackPressed s t false).armed = true ∧
     (handleOnBackPressed s t false).finished = false ∧
     (handleOnBackPressed s t false).actions = s.actions ++ [ExitAction.exitNotice]) ∧
    (tt < t + EXIT_WINDOW_MS →
       (handleOnBackPressed (handleOnBackPressed s t false) tt false).finished = true ∧
       (handleOnBackPressed (handleOnBackPressed s t false) tt false).actions
         = s.actions ++ [ExitAction.exitNotice, ExitAction.finishApp]) ∧
    (t + EXIT_WINDOW_MS < tt →
       (handleOnBackPressed (handleOnBackPressed s t false) tt false).finished = false ∧
       (handleOnBackPressed (handleOnBackPressed s t false) tt false).armed = true ∧
       (handleOnBackPressed (handleOnBackPressed s t false) tt false).actions
         = s.actions ++ [ExitAction.exitNotice, ExitAction.exitNotice]) ∧
    (∀ (s2 : ExitState) (t2 : Nat),
       (handleOnBackPressed s2 t2 true).finished = s2.finished ∧
       (handleOnBackPressed s2 t2 true).actions = s2.actions ++ [ExitAction.goBack]) := by
  have hfirst : handleOnBackPressed s t false
      = { armed := true, deadline := t + EXIT_WINDOW_MS, finished := s.finished,
          actions := s.actions ++ [ExitAction.exitNotice] } := by
    simp [handleOnBackPressed, disarmIfElapsed, hroot]
  refine ⟨?_, ?_, ?_, ?_⟩
  · rw [hfirst]; exact ⟨rfl, hfin, rfl⟩
  · intro hlt
    have hnl : ¬ (t + EXIT_WINDOW_MS ≤ tt) := Nat.not_le.mpr hlt
    rw [hfirst]
    constructor <;> simp [handleOnBackPressed, disarmIfElapsed, hnl]
  · intro hgt
    have hle : t + EXIT_WINDOW_MS ≤ tt := Nat.le_of_lt hgt
    rw [hfirst]
    refine ⟨?_, ?_, ?_⟩ <;> simp [handleOnBackPressed, disarmIfElapsed, hle, hfin]
  · intro s2 t2
    constructor <;> simp [handleOnBackPressed, disarmIfElapsed]
    · by_cases h : s2.armed = true ∧ s2.deadline ≤ t2 <;> simp [h]
    · by_cases h : s2.armed = true ∧ s2.deadline ≤ t2 <;> simp [h]

theorem C8_witness :
    ((handleOnBackPressed { armed := false, deadline := 0, finished := false, actions := [] }
        0 false).armed = true ∧
     (handleOnBackPressed { armed := false, deadline := 0, finished := false, actions := [] }
        0 false).finished = false ∧
     (handleOnBackPressed { armed := false, deadline := 0, finished := false, actions := [] }
        0 false).actions = [ExitAction.exitNotice]) ∧
    (handleOnBackPressed
        (handleOnBackPressed
          { armed := false, deadline := 0, finished := false, actions := [] } 0 false)
        1000 false).finished = true ∧
    (handleOnBackPressed
        (handleOnBackPressed
          { armed := false, deadline := 0, finished := false, actions := [] } 0 false)
        3000 false).finished = false := by
  have h := C8_exit_guard
      { armed := false, deadline := 0, finished := false, actions := [] } 0 1000 rfl rfl
  have h2 := C8_exit_guard
      { armed := false, deadline := 0, finished := false, actions := [] } 0 3000 rfl rfl
  refine ⟨?_, ?_, ?_⟩
  · have := h.1
    simpa using this
  · exact (h.2.1 (by decide)).1
  · exact (h2.2.2.1 (by decide)).1

/- ==========================================================================
   PERMISSION SEQUENCER (`requestFullPermissions`, `multiplePermissionLauncher`,
   `requestBackgroundLocation`; scheduled from `onCreate`)
   ========================================================================== -/

/-- `requestFullPermissions()` builds the batch handed to
`multiplePermissionLauncher.launch`: the eleven directly requestable
permissions, then on SDK 33+ notifications and the granular media-read
permissions (with the visual-user-selected one additionally requiring SDK
34), and on pre-33 hosts the legacy external-storage pair instead. -/
def requestFullPermissions (sdk : Nat) : List String :=
  let p := ["android.permission.CAMERA", "android.permission.RECORD_AUDIO",
    "android.permission.READ_CONTACTS", "android.permission.WRITE_CONTACTS",
    "android.permission.CALL_PHONE", "android.permission.READ_PHONE_STATE",
    "android.permission.READ_SMS", "android.permission.RECEIVE_SMS",
    "android.permission.SEND_SMS",
    "android.permission.ACCESS_FINE_LOCATION", "android.permission.ACCESS_COARSE_LOCATION"]
  if 33 ≤ sdk then
    p ++ (["android.permission.POST_NOTIFICATIONS", "android.permission.READ_MEDIA_IMAGES",
           "android.permission.READ_MEDIA_VIDEO", "android.permission.READ_MEDIA_AUDIO"]
          ++ (if 34 ≤ sdk then ["android.permission.READ_MEDIA_VISUAL_USER_SELECTED"] else []))
  else
    p ++ ["android.permission.READ_EXTERNAL_STORAGE", "android.permission.WRITE_EXTERNAL_STORAGE"]

theorem requestFullPermissions_eq_of_lt33 (sdk : Nat) (h : sdk < 33) :
    requestFullPermissions sdk =
      ["android.permission.CAMERA", "android.permission.RECORD_AUDIO",
       "android.permission.READ_CONTACTS", "android.permission.WRITE_CONTACTS",
       "android.permission.CALL_PHONE", "android.permission.READ_PHONE_STATE",
       "android.permission.READ_SMS", "android.permission.RECEIVE_SMS",
       "android.permission.SEND_SMS",
       "android.permission.ACCESS_FINE_LOCATION", "android.permission.ACCESS_COARSE_LOCATION",
       "android.permission.READ_EXTERNAL_STORAGE", "android.permission.WRITE_EXTERNAL_STORAGE"] := by
  have hn : ¬ 33 ≤ sdk := Nat.not_le.mpr h
  simp [requestFullPermissions, hn]

theorem requestFullPermissions_eq_of_33 (sdk : Nat) (h33 : 33 ≤ sdk) (h34 : sdk < 34) :
    requestFullPermissions sdk =
      ["android.permission.CAMERA", "android.permission.RECORD_AUDIO",
       "android.permission.READ_CONTACTS", "android.permission.WRITE_CONTACTS",
       "android.permission.CALL_PHONE", "android.permission.READ_PHONE_STATE",
       "android.permission.READ_SMS", "android.permission.RECEIVE_SMS",
       "android.permission.SEND_SMS",
       "android.permission.ACCESS_FINE_LOCATION", "android.permission.ACCESS_COARSE_LOCATION",
       "android.permission.POST_NOTIFICATIONS", "android.permission.READ_MEDIA_IMAGES",
       "android.permission.READ_MEDIA_VIDEO", "android.permission.READ_MEDIA_AUDIO"] := by
  have hn : ¬ 34 ≤ sdk := Nat.not_le.mpr h34
  simp [requestFullPermissions, h33, hn]

theorem requestFullPermissions_eq_of_34 (sdk : Nat) (h34 : 34 ≤ sdk) :
    requestFullPermissions sdk =
      ["android.permission.CAMERA", "android.permission.RECORD_AUDIO",
       "android.permission.READ_CONTACTS", "android.permission.WRITE_CONTACTS",
       "android.permission.CALL_PHONE", "android.permission.READ_PHONE_STATE",
       "android.permission.READ_SMS", "android.permission.RECEIVE_SMS",
       "android.permission.SEND_SMS",
       "android.permission.ACCESS_FINE_LOCATION", "android.permission.ACCESS_COARSE_LOCATION",
       "android.permission.POST_NOTIFICATIONS", "android.permission.READ_MEDIA_IMAGES",
       "android.permission.READ_MEDIA_VIDEO", "android.permission.READ_MEDIA_AUDIO",
       "android.permission.READ_MEDIA_VISUAL_USER_SELECTED"] := by
  have h33 : 33 ≤ sdk := le_trans (by omega) h34
  simp [requestFullPermissions, h33, h34]

/-- The ordered effects of the navigation-relevant part of `onCreate`:
exactly one permission-batch request is scheduled, with the fixed 5000ms
grace delay. -/
inductive BootAction where
  | setKeepScreenOn
  | setContentView
  | setupBiometricSystem
  | setupWebView
  | loadInitial (networkUp : Bool)
  | schedulePermissionRequest (delayMs : Nat)
  | registerBackHandler
  | registerNetworkMonitor
deriving DecidableEq

def BootAction.isPermissionSchedule : BootAction → Bool
  | BootAction.schedulePermissionRequest _ => true
  | _ => false

/-- The sequence of effects `onCreate` performs, in template order. -/
def onCreateActions (networkUp : Bool) : List BootAction :=
  [BootAction.setKeepScreenOn, BootAction.setContentView,
   BootAction.setupBiometricSystem, BootAction.setupWebView,
   BootAction.loadInitial networkUp,
   BootAction.schedulePermissionRequest 5000,
   BootAction.registerBackHandler, BootAction.registerNetworkMonitor]

/-- C5 (confirmed): the batch contains the notification permission and
each granular media-read permission iff the host SDK tier is at least 33
(the visual-user-selected one iff at least 34), and the legacy storage
pair iff the tier is below 33; and `onCreate` schedules exactly one
permission-batch request, with the fixed 5000ms grace delay. -/
theorem C5_permission_batch :
    (∀ sdk : Nat,
      (("android.permission.POST_NOTIFICATIONS" ∈ requestFullPermissions sdk) ↔ 33 ≤ sdk) ∧
      (("android.permission.READ_MEDIA_IMAGES" ∈ requestFullPermissions sdk) ↔ 33 ≤ sdk) ∧
      (("android.permission.READ_MEDIA_VIDEO" ∈ requestFullPermissions sdk) ↔ 33 ≤ sdk) ∧
      (("android.permission.READ_MEDIA_AUDIO" ∈ requestFullPermissions sdk) ↔ 33 ≤ sdk) ∧
      (("android.permission.READ_MEDIA_VISUAL_USER_SELECTED" ∈ requestFullPermissions sdk)
        ↔ 34 ≤ sdk) ∧
      (("android.permission.READ_EXTERNAL_STORAGE" ∈ requestFullPermissions sdk) ↔ sdk < 33) ∧
      (("android.permission.WRITE_EXTERNAL_STORAGE" ∈ requestFullPermissions sdk) ↔ sdk < 33)) ∧
    (∀ networkUp : Bool,
      (onCreateActions networkUp).filter BootAction.isPermissionSchedule
        = [BootAction.schedulePermissionRequest 5000]) := by
  constructor
  · intro sdk
    rcases Nat.lt_or_ge sdk 33 with hlt | h33
    · rw [requestFullPermissions_eq_of_lt33 sdk hlt]
      exact ⟨iff_of_false (by decide) (by omega),
             iff_of_false (by decide) (by omega),
             iff_of_false (by decide) (by omega),
             iff_of_false (by decide) (by omega),
             iff_of_false (by decide) (by omega),
             iff_of_true (by decide) hlt,
             iff_of_true (by decide) hlt⟩
    · rcases Nat.lt_or_ge sdk 34 with hlt34 | h34
      · rw [requestFullPermissions_eq_of_33 sdk h33 hlt34]
        exact ⟨iff_of_true (by decide) h33,
               iff_of_true (by decide) h33,
               iff_of_true (by decide) h33,
               iff_of_true (by decide) h33,
               iff_of_false (by decide) (by omega),
               iff_of_false (by decide) (by omega),
               iff_of_false (by decide) (by omega)⟩
      · rw [requestFullPermissions_eq_of_34 sdk h34]
        exact ⟨iff_of_true (by decide) h33,
               iff_of_true (by decide) h33,
               iff_of_true (by decide) h33,
               iff_of_true (by decide) h33,
               iff_of_true (by decide) h34,
               iff_of_false (by decide) (by omega),
               iff_of_false (by decide) (by omega)⟩
  · intro networkUp
    cases networkUp with
    | true => rfl
    | false => rfl

theorem C5_witness :
    (("android.permission.POST_NOTIFICATIONS" ∈ requestFullPermissions 33) ↔ 33 ≤ 33) ∧
    (("android.permission.READ_EXTERNAL_STORAGE" ∈ requestFullPermissions 32) ↔ 32 < 33) ∧
    (onCreateActions true).filter BootAction.isPermissionSchedule
      = [BootAction.schedulePermissionRequest 5000] := by
  obtain ⟨h1, h2⟩ := C5_permission_batch
  exact ⟨(h1 33).1, (h1 32).2.2.2.2.2.1, h2 true⟩

def ACCESS_BACKGROUND_LOCATION : String := "android.permission.ACCESS_BACKGROUND_LOCATION"

/-- `requestBackgroundLocation()`: on SDK ≥ 29 (`VERSION_CODES.Q`), if the
background-location permission is not already granted, launch exactly one
request for it; the returned list records the launched requests. -/
def requestBackgroundLocation (sdk : Nat) (bgAlreadyGranted : Bool) : List String :=
  if 29 ≤ sdk then
    (if bgAlreadyGranted = false then [ACCESS_BACKGROUND_LOCATION] else [])
  else []

/-- `multiplePermissionLauncher`'s completion callback: reads
`results[ACCESS_FINE_LOCATION] ?: false` and, when it is true and the SDK
is ≥ 29 (`VERSION_CODES.Q`), calls `requestBackgroundLocation()`. -/
def onPermissionBatchResult (sdk : Nat) (results : List (String × Bool))
    (bgAlreadyGranted : Bool) : List String :=
  let fineLocationGranted :=
    (results.lookup "android.permission.ACCESS_FINE_LOCATION").getD false
  if fineLocationGranted = true ∧ 29 ≤ sdk then
    requestBackgroundLocation sdk bgAlreadyGranted
  else []

/-- C6 counterexample: coarse location granted but fine location denied,
on an SDK-33 host (tier separates background consent) with the
background permission not yet granted — the claim says the follow-up
fires, but the callback inspects only ACCESS_FINE_LOCATION and issues no
follow-up request. -/
theorem C6_counterexample :
    (([("android.permission.ACCESS_COARSE_LOCATION", true),
       ("android.permission.ACCESS_FINE_LOCATION", false)].lookup
        "android.permission.ACCESS_COARSE_LOCATION").getD false = true) ∧
    29 ≤ 33 ∧
    onPermissionBatchResult 33
      [("android.permission.ACCESS_COARSE_LOCATION", true),
       ("android.permission.ACCESS_FINE_LOCATION", false)] false = [] := by
  decide

/-- C6 (amended): after the batch completes, at most one follow-up
request is issued, and exactly one background-location request is issued
iff the fine-location permission specifically was granted in the batch
(a coarse-only grant does not count), the host SDK is ≥ 29, and the
background permission is not already granted. -/
theorem C6_background_location_amended (sdk : Nat) (results : List (String × Bool))
    (bg : Bool) :
    onPermissionBatchResult sdk results bg
      = (if (results.lookup "android.permission.ACCESS_FINE_LOCATION").getD false = true
            ∧ 29 ≤ sdk ∧ bg = false
         then [ACCESS_BACKGROUND_LOCATION] else []) ∧
    (onPermissionBatchResult sdk results bg ≠ [] ↔
      ((results.lookup "android.permission.ACCESS_FINE_LOCATION").getD false = true
        ∧ 29 ≤ sdk ∧ bg = false)) ∧
    (onPermissionBatchResult sdk results bg).length ≤ 1 := by
  have heq : onPermissionBatchResult sdk results bg
      = (if (results.lookup "android.permission.ACCESS_FINE_LOCATION").getD false = true
            ∧ 29 ≤ sdk ∧ bg = false
         then [ACCESS_BACKGROUND_LOCATION] else []) := by
    by_cases hf : (results.lookup "android.permission.ACCESS_FINE_LOCATION").getD false = true
    · by_cases h29 : 29 ≤ sdk
      · by_cases hbg : bg = false
        · simp [onPermissionBatchResult, requestBackgroundLocation, hf, h29, hbg]
        · simp [onPermissionBatchResult, requestBackgroundLocation, hf, h29, hbg]
      · simp [onPermissionBatchResult, requestBackgroundLocation, hf, h29]
    · simp [onPermissionBatchResult, hf]
  refine ⟨heq, ?_, ?_⟩
  · rw [heq]
    by_cases h : ((results.lookup "android.permission.ACCESS_FINE_LOCATION").getD false = true
        ∧ 29 ≤ sdk ∧ bg = false)
    · simp [h, ACCESS_BACKGROUND_LOCATION]
    · simp [h]
  · rw [heq]
    by_cases h : ((results.lookup "android.permission.ACCESS_FINE_LOCATION").getD false = true
        ∧ 29 ≤ sdk ∧ bg = false)
    · simp [h]
    · simp [h]

theorem C6_witness :
    onPermissionBatchResult 33 [("android.permission.ACCESS_FINE_LOCATION", true)] false
      = [ACCESS_BACKGROUND_LOCATION] := by
  have h := C6_background_location_amended 33
      [("android.permission.ACCESS_FINE_LOCATION", true)] false
  rw [h.1]
  decide

/- ==========================================================================
   CAPABILITY BRIDGE WIRE CONTRACT (Android `WebAppInterface` vs the iOS
   injected `bridge_js` + registered `WKScriptMessageHandler` names)
   ========================================================================== -/

inductive ArgShape where
  | noArg
  | number
  | boolean
  | string
  | stringPair
deriving DecidableEq

/-- The Android capability surface:
`addJavascriptInterface(WebAppInterface(this), "Native")` exposes every
`@JavascriptInterface` method of `WebAppInterface`, with these names and
argument shapes. -/
def androidBridge : List (String × ArgShape) :=
  [("close", ArgShape.noArg), ("getPackageName", ArgShape.noArg),
   ("reload", ArgShape.noArg), ("clearCache", ArgShape.noArg),
   ("enableSecureScreen", ArgShape.noArg), ("disableSecureScreen", ArgShape.noArg),
   ("getDeviceInfo", ArgShape.noArg), ("loginBiometric", ArgShape.noArg),
   ("getBatteryLevel", ArgShape.noArg), ("isCharging", ArgShape.noArg),
   ("isPowerSaveMode", ArgShape.noArg), ("copyToClipboard", ArgShape.string),
   ("openExternalBrowser", ArgShape.string), ("vibrate", ArgShape.number),
   ("startNFCScan", ArgShape.noArg), ("stopNFCScan", ArgShape.noArg),
   ("onScreen", ArgShape.boolean), ("flashlight", ArgShape.boolean),
   ("bluetooth", ArgShape.boolean), ("notification", ArgShape.stringPair)]

structure IosJsMethod where
  name : String
  shape : ArgShape
  message : String
deriving DecidableEq

/-- The injected `bridge_js` object `window.Native` on iOS: each JS
method, its argument shape, and the message-handler name it posts to
(`post` silently drops the message when no handler of that name is
registered). -/
def iosBridgeJs : List IosJsMethod :=
  [⟨"vibrate", ArgShape.number, "vibrate"⟩,
   ⟨"loginBiometric", ArgShape.noArg, "loginBiometric"⟩,
   ⟨"finishApp", ArgShape.noArg, "finishApp"⟩,
   ⟨"copyToClipboard", ArgShape.string, "copyToClipboard"⟩,
   ⟨"getBatteryStatus", ArgShape.noArg, "getBatteryStatus"⟩,
   ⟨"flashlight", ArgShape.boolean, "flashlight"⟩]

/-- The script-message handlers registered in `setupWebView`
(`methods.forEach { contentController.add(self, name: $0) }`). -/
def iosMessageHandlers : List String :=
  ["vibrate", "loginBiometric", "close", "copyToClipboard", "getBatteryLevel", "flashlight"]

/-- A capability invocation `Native.name(arg)` from the shared web
content reaches a host handler on Android iff `WebAppInterface` has a
method of that name and shape. -/
def androidReaches (name : String) (shape : ArgShape) : Prop :=
  (name, shape) ∈ androidBridge

/-- On iOS the same invocation reaches a host handler iff the injected JS
defines the method with that shape and the message name it posts to has a
registered handler. -/
def iosReaches (name : String) (shape : ArgShape) : Prop :=
  ∃ m ∈ iosBridgeJs, m.name = name ∧ m.shape = shape ∧ m.message ∈ iosMessageHandlers

instance (name : String) (shape : ArgShape) : Decidable (androidReaches name shape) := by
  unfold androidReaches; infer_instance

instance (name : String) (shape : ArgShape) : Decidable (iosReaches name shape) := by
  unfold iosReaches; infer_instance

/-- C3 counterexample: the capability `reload` (no argument) reaches a
handler on Android but not on iOS, so the wire contracts of the two host
implementations are not identical. -/
theorem C3_counterexample :
    androidReaches "reload" ArgShape.noArg ∧ ¬ iosReaches "reload" ArgShape.noArg := by
  decide

/-- C3 (amended): the two wire contracts agree only on the four
capabilities loginBiometric, copyToClipboard, vibrate and flashlight
(with matching argument shapes); additionally the iOS side registers
handlers named close and getBatteryLevel that no injected JS method posts
to, while its JS methods finishApp and getBatteryStatus post to message
names with no registered handler. -/
theorem C3_bridge_contract_amended :
    (androidBridge.filter (fun p => decide (iosReaches p.1 p.2)))
      = [("loginBiometric", ArgShape.noArg), ("copyToClipboard", ArgShape.string),
         ("vibrate", ArgShape.number), ("flashlight", ArgShape.boolean)] ∧
    ("close" ∈ iosMessageHandlers ∧
       iosBridgeJs.filter (fun m => m.message == "close") = []) ∧
    ("getBatteryLevel" ∈ iosMessageHandlers ∧
       iosBridgeJs.filter (fun m => m.message == "getBatteryLevel") = []) ∧
    (¬ iosReaches "finishApp" ArgShape.noArg ∧
       (⟨"finishApp", ArgShape.noArg, "finishApp"⟩ : IosJsMethod) ∈ iosBridgeJs ∧
       "finishApp" ∉ iosMessageHandlers) ∧
    (¬ iosReaches "getBatteryStatus" ArgShape.noArg ∧
       (⟨"getBatteryStatus", ArgShape.noArg, "getBatteryStatus"⟩ : IosJsMethod) ∈ iosBridgeJs ∧
       "getBatteryStatus" ∉ iosMessageHandlers) := by
  decide

/- ==========================================================================
   WEB-CONTENT PERMISSION PROMPTS (`onPermissionRequest`,
   `onGeolocationPermissionsShowPrompt`)
   ========================================================================== -/

/-- `WebChromeClient.onPermissionRequest`: calls `request.grant(resources)`
on the full requested resource set, unconditionally.  `osGranted` is the
OS-level app-permission state, available to the host but never consulted;
the returned list is the granted set. -/
def onPermissionRequest (_osGranted : String → Bool) (resources : List String) :
    List String :=
  resources

/-- `onGeolocationPermissionsShowPrompt(origin, callback)`: invokes
`callback(origin, true, false)` — allow unconditionally, do not retain. -/
def onGeolocationPermissionsShowPrompt (origin : String) : String × Bool × Bool :=
  (origin, true, false)

/-- C10 (confirmed): every hardware-capability request from embedded web
content is granted in full, for every requested resource set and
regardless of the OS-level permission state, with no user prompt; every
geolocation prompt is answered allow (and not retained) for every
origin. -/
theorem C10_web_permission_grant :
    (∀ (osGranted : String → Bool) (resources : List String),
        onPermissionRequest osGranted resources = resources) ∧
    (∀ origin : String,
        onGeolocationPermissionsShowPrompt origin = (origin, true, false)) :=
  ⟨fun _ _ => rfl, fun _ => rfl⟩

end Web2Native
